import Mathlib

/-!
Verification of the compliance-updates scraper (`App.py`).

The program fetches rule-revision entries from the UAE Central Bank rulebook
site, diffs them by title against a JSON snapshot of the previous run, saves
the snapshot and emails the new entries.  Below we give a shallow embedding of
its data model and operations and prove (or refute) the specified properties.
-/

/-- One rule-revision entry, as built by `get_updates` in `App.py`
(a dict with the four string keys `title`, `date`, `link`, `body`). -/
structure UpdateRecord where
  title : String
  date : String
  link : String
  body : String
deriving DecidableEq, Repr

/-- Embedding of `get_new_updates(current_updates, last_updates)` from
`App.py`.  Python's `if not last_updates:` is truthy-false both for `None`
and for the empty list, so both cases return `current_updates` unchanged;
otherwise the records of `current_updates` whose title occurs in
`last_updates` are filtered out (the Python code materialises the set
`{update['title'] for update in last_updates}` and keeps the records whose
title is not in it, which `List.any` over the titles models exactly). -/
def get_new_updates (current_updates : List UpdateRecord)
    (last_updates : Option (List UpdateRecord)) : List UpdateRecord :=
  match last_updates with
  | none => current_updates
  | some l =>
    if l.isEmpty then current_updates
    else current_updates.filter (fun u => !(l.any (fun p => p.title == u.title)))

/-!
Snapshot store (`load_last_updates` / `save_updates` in `App.py`).

The snapshot file holds whatever `json.dump` wrote; `json.load` parses the
bytes back into a Python value with no shape validation.  We model Python
JSON values with the `Json` inductive (floats omitted — the snapshot only
ever holds strings), and the file's byte-level state abstractly as
`Option (Except String Json)`: `none` is "no file", `some (.error m)` is a
file whose contents do not parse as JSON (so `json.load` raises), and
`some (.ok j)` is a file whose contents parse to the value `j`.
-/

/-- A Python JSON value as produced/consumed by the `json` module
(floats omitted; the snapshot only ever holds strings). -/
inductive Json where
  | null : Json
  | bool : Bool → Json
  | num : Int → Json
  | str : String → Json
  | arr : List Json → Json
  | obj : List (String × Json) → Json

/-- The byte-level state of the snapshot file, abstracted to how
`json.load` would react to it: absent, unparseable, or parsed value. -/
def SnapshotFile : Type := Option (Except String Json)

/-- The error taxonomy entry for a corrupt/unreadable snapshot: in
`App.py` this is the uncaught `json.JSONDecodeError` escaping
`load_last_updates`. -/
inductive StorageError where
  | jsonDecodeError : String → StorageError
deriving DecidableEq, Repr

/-- The JSON value `json.dump` writes for one record: the dict literal of
`get_updates`, keys in insertion order `title`, `date`, `link`, `body`. -/
def recordToJson (u : UpdateRecord) : Json :=
  .obj [("title", .str u.title), ("date", .str u.date),
        ("link", .str u.link), ("body", .str u.body)]

/-- The JSON value `json.dump` writes for the whole snapshot: a JSON array
of record objects. -/
def updatesToJson (updates : List UpdateRecord) : Json :=
  .arr (updates.map recordToJson)

/-- Reading one record back out of a JSON value, by key lookup (so key
ordering inside the object is irrelevant), as the type annotation
`List[Dict[str, str]]` of `App.py` promises each element looks. -/
def jsonLookup (kvs : List (String × Json)) (k : String) : Option Json :=
  match kvs.find? (fun kv => kv.1 == k) with
  | none => none
  | some kv => some kv.2

/-- Reading one record out of a JSON value via `jsonLookup`: requires an
object whose `title`, `date`, `link`, `body` keys are all present and hold
strings. -/
def recordFromJson (j : Json) : Option UpdateRecord :=
  match j with
  | .obj kvs =>
    match jsonLookup kvs "title", jsonLookup kvs "date",
          jsonLookup kvs "link", jsonLookup kvs "body" with
    | some (Json.str t), some (Json.str d), some (Json.str l), some (Json.str b) =>
      some ⟨t, d, l, b⟩
    | _, _, _, _ => none
  | _ => none

/-- Reading the whole snapshot back as a sequence of records. -/
def updatesFromJson (j : Json) : Option (List UpdateRecord) :=
  match j with
  | .arr xs => xs.mapM recordFromJson
  | _ => none

/-- Embedding of `save_updates(updates)`: overwrites the snapshot file with
the JSON serialization of `updates` (always valid JSON), returning the new
file state. -/
def save_updates (updates : List UpdateRecord) : SnapshotFile :=
  some (.ok (updatesToJson updates))

/-- Embedding of `load_last_updates()`: returns `none` when the file does
not exist; raises (`Except.error`) when the file exists but `json.load`
fails; otherwise returns the parsed JSON value as-is — the code performs
no shape validation whatsoever. -/
def load_last_updates (file : SnapshotFile) : Except StorageError (Option Json) :=
  match file with
  | none => .ok none
  | some (.error msg) => .error (.jsonDecodeError msg)
  | some (.ok j) => .ok (some j)

/-!
Fetcher (`get_updates` in `App.py`).

The HTML page is abstracted to what the parsing code inspects: the list of
`div.book-detail` blocks (each possibly containing an anchor with text and
an optional `href` attribute, and possibly a `time` element) and the list
of `div.book-trail` blocks (each possibly containing a
`span.field-content`).  A missing element makes the corresponding
`find(...)` return Python `None`, so the subsequent attribute access
raises — modelled as `Except.error`.
-/

/-- The anchor inside a detail block: its text, and its `href` attribute if
present (a missing attribute makes `anchor["href"]` raise `KeyError`). -/
structure Anchor where
  text : String
  href : Option String
deriving DecidableEq, Repr

/-- One `div.book-detail` block: `find("a")` and `find("time")` results. -/
structure DetailBlock where
  anchor : Option Anchor
  timeText : Option String
deriving DecidableEq, Repr

/-- One `div.book-trail` block: the `find("span", class_="field-content")`
result. -/
structure TrailBlock where
  spanText : Option String
deriving DecidableEq, Repr

/-- The fetched page, abstracted to the two parallel block collections
that `get_updates` extracts. -/
structure Page where
  headlines : List DetailBlock
  trails : List TrailBlock
deriving DecidableEq, Repr

/-- Extraction of one record from a paired detail/trail block, in the
order the Python loop body evaluates: `title` (anchor text, stripped),
`date` (time text, stripped), `link` (href resolved against the site
origin, unstripped), `body` (span text, stripped).  Each missing element
raises, modelled as `Except.error`. -/
def extractRecord (headline : DetailBlock) (trail : TrailBlock) :
    Except String UpdateRecord :=
  match headline.anchor with
  | none => .error "AttributeError: find returned None for a"
  | some a =>
    match headline.timeText with
    | none => .error "AttributeError: find returned None for time"
    | some d =>
      match a.href with
      | none => .error "KeyError: href"
      | some href =>
        match trail.spanText with
        | none => .error "AttributeError: find returned None for span"
        | some b =>
          .ok ⟨a.text.trim, d.trim,
               "https://rulebook.centralbank.ae" ++ href, b.trim⟩

/-- Embedding of `get_updates()` (the parsing part, network success
assumed): returns `[]` when no detail blocks are found; otherwise walks
`zip(headlines, trails)` — which silently truncates to the shorter of the
two lists — extracting one record per pair, and propagates the first
extraction exception. -/
def get_updates (page : Page) : Except String (List UpdateRecord) :=
  if page.headlines.isEmpty then .ok []
  else (page.headlines.zip page.trails).mapM
    (fun ht => extractRecord ht.1 ht.2)

/-!
Driver (the `__main__` block of `App.py`).

The driver's observable effects are its exit code and which of
`save_updates` / `send_email` it invoked, and with what arguments.  The
fetch result and loaded snapshot are parameters (their own failure modes
exit earlier and are modelled with the respective components);
`send_ok` abstracts whether `send_email` succeeds (API key present and
provider call succeeds) or calls `sys.exit(1)`.
-/

/-- What one driver run does: final exit code, the argument of the
`save_updates` call if any, and the argument of the `send_email` call if
any. -/
structure DriverResult where
  exit_code : Nat
  saved : Option (List UpdateRecord)
  notified : Option (List UpdateRecord)
deriving DecidableEq, Repr

/-- Embedding of the `__main__` block: exit 0 on an empty fetch; load,
diff, exit 0 on an empty diff (without saving); otherwise save the full
current fetch, then email only the new subset (exiting 1 if the send
fails). -/
def run_main (current_updates : List UpdateRecord)
    (last_updates : Option (List UpdateRecord)) (send_ok : Bool) :
    DriverResult :=
  if current_updates.isEmpty then ⟨0, none, none⟩
  else
    let new_updates := get_new_updates current_updates last_updates
    if new_updates.isEmpty then ⟨0, none, none⟩
    else if send_ok then ⟨0, some current_updates, some new_updates⟩
    else ⟨1, some current_updates, some new_updates⟩

/-!
Notifier (`send_email` in `App.py`).

The composition of subject and HTML body is pure given the new-records
list and the formatted current date (`datetime.now().strftime('%d %B %Y')`
is passed in as `now_str`); the f-string fragments below are transcribed
verbatim from the source, including their indentation and newlines.
-/

/-- Python's `"updates" if len(new_updates) > 1 else "update"`. -/
def message_plural (new_count : Nat) : String :=
  if new_count > 1 then "updates" else "update"

/-- The email subject:
`f"UAE Central Bank Rulebook Updates - {datetime.now().strftime('%d %B %Y')}"`. -/
def email_subject (now_str : String) : String :=
  "UAE Central Bank Rulebook Updates - " ++ now_str

/-- The opening f-string of the email body (count and plural
interpolated). -/
def email_header (new_count : Nat) : String :=
  "\n    <html>\n    <body>\n        <p>We found " ++ toString new_count ++
    " new " ++ message_plural new_count ++
    " added to the Central Bank Rulebook:</p>\n    "

/-- The per-record f-string appended to the body inside the loop. -/
def update_html (u : UpdateRecord) : String :=
  "\n        <p>\n            <strong>" ++ u.title ++
    "</strong><br>\n            " ++ u.body ++
    "<br>\n            Date: " ++ u.date ++
    "<br>\n            <a href=\"" ++ u.link ++
    "\">Read more</a>\n        </p>\n        "

/-- The fixed closing fragment of the body: the unsubscribe-style footer
plus the closing tags. -/
def email_footer : String :=
  "\n        <p>\n            <em>\n                You are receiving this email as part of an initiative to keep stakeholders informed of updates to the Central Bank Rulebook.\n                If you\u0027d like to be removed from this mailing list, please contact us.\n            </em>\n        </p>\n    </body>\n    </html>\n    "

/-- The full HTML body `content` built by `send_email`: header, one
fragment per new record in order, footer. -/
def email_content (new_updates : List UpdateRecord) : String :=
  email_header new_updates.length ++
    String.join (new_updates.map update_html) ++ email_footer

/-- The message `send_email` hands to the provider (fixed sender, the
given recipient list, composed subject and HTML body). -/
structure EmailMessage where
  subject : String
  html_body : String
  from_addr : String
  to_addrs : List String
deriving DecidableEq, Repr

/-- Embedding of the message-composition part of `send_email` (the
credential lookup and provider call are the driver-level `send_ok`). -/
def send_email (new_updates : List UpdateRecord) (recipients : List String)
    (now_str : String) : EmailMessage :=
  ⟨email_subject now_str, email_content new_updates,
   "raed.aldweik@sas.com", recipients⟩

/-- The spec's "pluralized count of new records" as the code renders it
inside the body: `f"{len(new_updates)} new {message_plural}"`. -/
def count_phrase (new_count : Nat) : String :=
  toString new_count ++ " new " ++ message_plural new_count

/-- Does `s` start with the pattern `p` (character lists)? -/
def charsStartWith : List Char → List Char → Bool
  | [], _ => true
  | _ :: _, [] => false
  | p :: ps, c :: cs => p == c && charsStartWith ps cs

/-- Does the pattern occur contiguously anywhere in `s`? -/
def charsContain (pat : List Char) : List Char → Bool
  | [] => charsStartWith pat []
  | c :: cs => charsStartWith pat (c :: cs) || charsContain pat cs

/-- String-level contiguous containment, via `charsContain`. -/
def strContains (s pat : String) : Bool :=
  charsContain pat.data s.data

/-- `get_new_updates` over a present (non-none) snapshot is exactly a filter
of `current` by non-membership of the title among the snapshot's titles;
this also covers the empty-snapshot truthiness branch, where the filter
keeps everything. -/
lemma get_new_updates_eq_filter (cur prev : List UpdateRecord) :
    get_new_updates cur (some prev) =
      cur.filter (fun u => !(prev.any (fun p => p.title == u.title))) := by
  cases prev with
  | nil => simp [get_new_updates]
  | cons a l => rfl

/-- Claim C2: for every current sequence and every non-none previous
sequence, `get_new_updates` returns exactly those records of `current` whose
title is not among the titles of `previous`, in the same relative order as
in `current` (stated as equality with `List.filter`, which preserves order). -/
theorem diff_filters_by_title_in_order (cur prev : List UpdateRecord) :
    get_new_updates cur (some prev) =
      cur.filter (fun u => !(prev.any (fun p => p.title == u.title))) :=
  get_new_updates_eq_filter cur prev

/-- Claim C3: when the previous snapshot is none (first run), every current
record is new: `get_new_updates F none = F`. -/
theorem diff_none_returns_current (F : List UpdateRecord) :
    get_new_updates F none = F := rfl

/-- Claim C4: diffing a fetch against itself yields nothing new:
`get_new_updates F (some F) = []`. -/
theorem diff_self_empty (F : List UpdateRecord) :
    get_new_updates F (some F) = [] := by
  rw [get_new_updates_eq_filter]
  rw [List.filter_eq_nil_iff]
  intro u hu
  simp only [Bool.not_eq_true', Bool.not_eq_false]
  exact List.any_eq_true.mpr ⟨u, hu, by simp⟩

/-- Counting with `p` inside a filter by `q` loses nothing when every
element satisfying `p` also satisfies `q`. -/
lemma countP_filter_of_imp (l : List UpdateRecord) (p q : UpdateRecord → Bool)
    (h : ∀ u ∈ l, p u = true → q u = true) :
    (l.filter q).countP p = l.countP p := by
  induction l with
  | nil => rfl
  | cons a l ih =>
    have ih' := ih (fun u hu => h u (List.mem_cons_of_mem a hu))
    by_cases hq : q a = true
    · simp [List.filter_cons, List.countP_cons, hq, ih']
    · have hp : p a = false := by
        cases hpa : p a with
        | false => rfl
        | true => exact absurd (h a (List.mem_cons_self a l) hpa) hq
      simp [List.filter_cons, List.countP_cons, hq, hp, ih']

/-- Claim C10: `get_new_updates` does not collapse duplicate titles inside
the current fetch: for any title `t` absent from the previous snapshot's
titles, the records of `current` carrying title `t` all survive — both in
multiplicity (`countP` is preserved) and individually (each such record is
a member of the output). -/
theorem diff_keeps_duplicate_titles (cur prev : List UpdateRecord) (t : String)
    (h : ∀ p ∈ prev, p.title ≠ t) :
    ((get_new_updates cur (some prev)).countP (fun u => u.title == t) =
        cur.countP (fun u => u.title == t)) ∧
      (∀ u ∈ cur, u.title = t → u ∈ get_new_updates cur (some prev)) := by
  have hpred : ∀ u ∈ cur, u.title = t →
      (!(prev.any (fun p => p.title == u.title))) = true := by
    intro u _ hut
    simp only [Bool.not_eq_true', List.any_eq_false]
    intro p hp
    simp only [hut, beq_iff_eq]
    exact fun hpe => h p hp hpe
  rw [get_new_updates_eq_filter]
  constructor
  · apply countP_filter_of_imp
    intro u hu hp
    exact hpred u hu (by simpa using hp)
  · intro u hu hut
    exact List.mem_filter.mpr ⟨hu, hpred u hu hut⟩

/-- Claim C10 witness: two distinct records sharing the title A, absent
from the previous snapshot, both survive the diff. -/
theorem diff_keeps_duplicate_titles_witness :
    (∀ p ∈ [(⟨"B", "d0", "l0", "b0"⟩ : UpdateRecord)], p.title ≠ "A") ∧
      ((get_new_updates
            [⟨"A", "d1", "l1", "b1"⟩, ⟨"A", "d2", "l2", "b2"⟩]
            (some [⟨"B", "d0", "l0", "b0"⟩])).countP
          (fun u => u.title == "A") =
        ([(⟨"A", "d1", "l1", "b1"⟩ : UpdateRecord),
          ⟨"A", "d2", "l2", "b2"⟩].countP (fun u => u.title == "A"))) ∧
      (∀ u ∈ [(⟨"A", "d1", "l1", "b1"⟩ : UpdateRecord), ⟨"A", "d2", "l2", "b2"⟩],
        u.title = "A" →
          u ∈ get_new_updates
            [⟨"A", "d1", "l1", "b1"⟩, ⟨"A", "d2", "l2", "b2"⟩]
            (some [⟨"B", "d0", "l0", "b0"⟩])) := by
  refine ⟨by decide, ?_⟩
  have h := diff_keeps_duplicate_titles
    [⟨"A", "d1", "l1", "b1"⟩, ⟨"A", "d2", "l2", "b2"⟩]
    [⟨"B", "d0", "l0", "b0"⟩] "A" (by decide)
  exact h

/-- Decoding inverts encoding on each record. -/
lemma recordFromJson_recordToJson (u : UpdateRecord) :
    recordFromJson (recordToJson u) = some u := rfl

/-- Decoding inverts encoding on whole snapshots. -/
lemma updatesFromJson_updatesToJson (F : List UpdateRecord) :
    updatesFromJson (updatesToJson F) = some F := by
  simp only [updatesFromJson, updatesToJson]
  induction F with
  | nil => rfl
  | cons u l ih =>
    simp only [List.map_cons, List.mapM_cons, recordFromJson_recordToJson, ih,
      Option.bind_eq_bind, Option.some_bind, Option.pure_def]

/-- Claim C5: round-trip — saving any sequence of records and then loading
succeeds and yields the serialized value back, and decoding that value (by
key lookup, hence ignoring key ordering within each record) recovers the
original sequence exactly. -/
theorem save_load_roundtrip (F : List UpdateRecord) :
    load_last_updates (save_updates F) = .ok (some (updatesToJson F)) ∧
      updatesFromJson (updatesToJson F) = some F :=
  ⟨rfl, updatesFromJson_updatesToJson F⟩

/-- Claim C7 counterexample: a snapshot file holding `{}` — valid JSON that
does not match the expected shape (a list of records) — is returned as-is
by `load_last_updates` instead of failing with a `StorageError`, refuting
the claim that load "fails with a StorageError when the file exists but is
not valid JSON matching the expected shape". -/
theorem load_wrong_shape_no_error_cex :
    load_last_updates (some (.ok (Json.obj []))) = .ok (some (Json.obj [])) ∧
      updatesFromJson (Json.obj []) = none :=
  ⟨rfl, rfl⟩

/-- Claim C7 amended: `load_last_updates` returns none when no snapshot
file exists; fails with a `StorageError` when the file exists but is not
valid JSON; and when the file is valid JSON of any shape whatsoever it
returns the parsed value unvalidated. -/
theorem load_behavior_amended (msg : String) (j : Json) :
    load_last_updates none = .ok none ∧
      load_last_updates (some (.error msg)) =
        .error (.jsonDecodeError msg) ∧
      load_last_updates (some (.ok j)) = .ok (some j) :=
  ⟨rfl, rfl, rfl⟩

/-- Claim C8 counterexample: a page with one well-formed detail block and
zero trail blocks (block counts 1 and 0 differ, at least one detail block
present).  `get_updates` does not fail: `zip` silently truncates to the
shorter collection, and the fetch returns the empty record sequence. -/
theorem mismatched_counts_no_error_cex :
    get_updates ⟨[⟨some ⟨"T", some "/x"⟩, some "1 Jan 2024"⟩], []⟩ =
        .ok [] ∧
      (Page.mk [⟨some ⟨"T", some "/x"⟩, some "1 Jan 2024"⟩] []).headlines.length
          = 1 ∧
      (Page.mk [⟨some ⟨"T", some "/x"⟩, some "1 Jan 2024"⟩] []).trails.length
          = 0 :=
  ⟨rfl, rfl, rfl⟩

/-- A `mapM` over `Except` whose every application succeeds returns `ok`
of a list of the same length. -/
lemma mapM_ok_of_forall_ok {α β : Type} (f : α → Except String β)
    (l : List α) (h : ∀ x ∈ l, (f x).isOk = true) :
    ∃ ys : List β, l.mapM f = .ok ys ∧ ys.length = l.length := by
  induction l with
  | nil => exact ⟨[], rfl, rfl⟩
  | cons a l ih =>
    obtain ⟨ys, hys, hlen⟩ := ih (fun x hx => h x (List.mem_cons_of_mem a hx))
    have ha := h a (List.mem_cons_self a l)
    cases hfa : f a with
    | error e =>
      rw [hfa] at ha
      exact absurd ha (by simp [Except.isOk, Except.toBool])
    | ok y =>
      refine ⟨y :: ys, ?_, by simp [hlen]⟩
      rw [List.mapM_cons, hfa, hys]
      rfl

/-- Claim C8 amended: when the detail-block and trail-block counts differ
(with at least one detail block present), `get_updates` raises no parse
error on account of the mismatch: `zip` pairs the blocks positionally up to
the shorter count, and — provided each paired block is individually
well-formed — the fetch succeeds with exactly `min` of the two counts many
records. -/
theorem mismatched_counts_truncation (page : Page)
    (hne : page.headlines ≠ [])
    (hmm : page.headlines.length ≠ page.trails.length)
    (hok : ∀ ht ∈ page.headlines.zip page.trails,
      (extractRecord ht.1 ht.2).isOk = true) :
    ∃ recs, get_updates page = .ok recs ∧
      recs.length = min page.headlines.length page.trails.length := by
  obtain ⟨recs, hrecs, hlen⟩ :=
    mapM_ok_of_forall_ok (fun ht => extractRecord ht.1 ht.2)
      (page.headlines.zip page.trails) hok
  refine ⟨recs, ?_, ?_⟩
  · rw [get_updates, if_neg (by simpa using hne)]
    exact hrecs
  · rw [hlen, List.length_zip]

/-- Claim C6: when the fetch returns the empty sequence — which
`get_updates` does, without error, whenever the page has no detail
blocks — the driver exits 0 and calls neither save nor notify. -/
theorem fetch_empty_driver_exits_zero (ts : List TrailBlock)
    (last : Option (List UpdateRecord)) (send_ok : Bool) :
    get_updates ⟨[], ts⟩ = .ok [] ∧
      run_main [] last send_ok = ⟨0, none, none⟩ :=
  ⟨rfl, rfl⟩

/-- Claim C1 counterexample: fetch returns one record A and the snapshot
already holds A, so the diff is empty — yet the driver exits 0 *without*
calling `save_updates` at all (`saved = none`), contradicting the claim
that it still calls save with the full current fetch.  (It indeed does not
notify.) -/
theorem driver_diff_empty_skips_save_cex :
    get_new_updates [⟨"A", "d", "l", "b"⟩] (some [⟨"A", "d", "l", "b"⟩]) = [] ∧
      run_main [⟨"A", "d", "l", "b"⟩] (some [⟨"A", "d", "l", "b"⟩]) true =
        ⟨0, none, none⟩ ∧
      (run_main [⟨"A", "d", "l", "b"⟩] (some [⟨"A", "d", "l", "b"⟩]) true).saved
        ≠ some [⟨"A", "d", "l", "b"⟩] :=
  ⟨by decide, by decide, by decide⟩

/-- Claim C1 amended: when the fetch is non-empty but the diff comes back
empty, the driver exits 0 calling *neither* save *nor* notify (the code
skips the snapshot rewrite in this case, unlike what the spec states). -/
theorem driver_diff_empty_no_save_no_notify (cur : List UpdateRecord)
    (last : Option (List UpdateRecord)) (send_ok : Bool)
    (hne : cur ≠ []) (hdiff : get_new_updates cur last = []) :
    run_main cur last send_ok = ⟨0, none, none⟩ := by
  have h1 : cur.isEmpty = false := by simpa using hne
  simp [run_main, h1, hdiff]

/-- Claim C1 amended, witness: the concrete no-change scenario above. -/
theorem driver_diff_empty_no_save_no_notify_witness :
    ([(⟨"A", "d", "l", "b"⟩ : UpdateRecord)] ≠ []) ∧
      get_new_updates [⟨"A", "d", "l", "b"⟩] (some [⟨"A", "d", "l", "b"⟩]) = [] ∧
      run_main [⟨"A", "d", "l", "b"⟩] (some [⟨"A", "d", "l", "b"⟩]) true =
        ⟨0, none, none⟩ :=
  ⟨by decide, by decide,
    driver_diff_empty_no_save_no_notify _ _ _ (by decide) (by decide)⟩

/-- A pattern starts every list that extends it. -/
lemma charsStartWith_append (p r : List Char) :
    charsStartWith p (p ++ r) = true := by
  induction p with
  | nil => rfl
  | cons a ps ih => simp [charsStartWith, ih]

/-- The empty pattern occurs in every list. -/
lemma charsContain_nil_pat (s : List Char) : charsContain [] s = true := by
  cases s <;> simp [charsContain, charsStartWith]

/-- A pattern occurs at the head of any list extending it. -/
lemma charsContain_here (p r : List Char) : charsContain p (p ++ r) = true := by
  cases p with
  | nil => exact charsContain_nil_pat r
  | cons a ps =>
    have h := charsStartWith_append (a :: ps) r
    simp only [List.cons_append] at h
    simp [charsContain, h]

/-- Occurrence is stable under prepending. -/
lemma charsContain_append_left (x s p : List Char)
    (h : charsContain p s = true) : charsContain p (x ++ s) = true := by
  induction x with
  | nil => simpa using h
  | cons c cs ih => simp [charsContain, ih]

/-- String-level: the pattern `p` occurs in any string of the shape
`x ++ p ++ y`. -/
lemma strContains_of_decomp (x p y : String) :
    strContains (x ++ p ++ y) p = true := by
  show charsContain p.data (x ++ p ++ y).data = true
  rw [String.data_append, String.data_append, List.append_assoc]
  exact charsContain_append_left x.data _ _ (charsContain_here p.data y.data)

/-- Folding append from any seed equals the seed prepended to the fold
from the empty string. -/
lemma str_foldl_shift (l : List String) (x : String) :
    l.foldl (· ++ ·) x = x ++ l.foldl (· ++ ·) "" := by
  induction l generalizing x with
  | nil => simp [String.append_empty]
  | cons a l ih =>
    rw [List.foldl_cons, List.foldl_cons, ih (x ++ a), ih ("" ++ a),
      String.empty_append, String.append_assoc]

/-- `String.join` distributes over cons. -/
lemma join_cons (a : String) (l : List String) :
    String.join (a :: l) = a ++ String.join l := by
  show (a :: l).foldl (· ++ ·) "" = a ++ l.foldl (· ++ ·) ""
  rw [List.foldl_cons, str_foldl_shift l ("" ++ a), String.empty_append]

/-- Every member of a joined list occurs contiguously in the join. -/
lemma join_decomp (l : List String) (a : String) (h : a ∈ l) :
    ∃ x y : String, String.join l = x ++ a ++ y := by
  induction l with
  | nil => cases h
  | cons b l ih =>
    rcases List.mem_cons.mp h with rfl | h2
    · exact ⟨"", String.join l, by rw [join_cons, String.empty_append]⟩
    · obtain ⟨x, y, hxy⟩ := ih h2
      refine ⟨b ++ x, y, ?_⟩
      rw [join_cons, hxy]
      simp [String.append_assoc]

/-- Claim C9 counterexample: with two new records the pluralized count
phrase is "2 new updates", but the composed subject line is the fixed
prefix plus the date only — it does not include the count (which the code
puts in the body instead).  The last conjunct derives, via
`strContains_of_decomp`, that no decomposition of the subject around the
count phrase exists. -/
theorem subject_lacks_count_cex :
    ([(⟨"T1", "D1", "L1", "B1"⟩ : UpdateRecord),
        ⟨"T2", "D2", "L2", "B2"⟩].length = 2) ∧
      strContains (email_subject "01 January 2024") (count_phrase 2) = false ∧
      (∀ x y : String,
        email_subject "01 January 2024" ≠ x ++ count_phrase 2 ++ y) := by
  refine ⟨rfl, by decide, ?_⟩
  intro x y hxy
  have h1 := strContains_of_decomp x (count_phrase 2) y
  rw [← hxy] at h1
  have h2 : strContains (email_subject "01 January 2024") (count_phrase 2)
      = false := by decide
  rw [h1] at h2
  cases h2

/-- Claim C9 amended: for every non-empty new-record list, the subject
includes the current date (as a suffix of a fixed prefix), the *body*
includes the pluralized count of new records, the body lists each
record's fragment — title, body text, date and hyperlink, via
`update_html` — and the body ends with the fixed unsubscribe-style
footer. -/
theorem email_composition_amended (l : List UpdateRecord) (now_str : String)
    (h : l ≠ []) :
    (∃ x, email_subject now_str = x ++ now_str) ∧
      (∃ x y, email_content l = x ++ count_phrase l.length ++ y) ∧
      (∀ u ∈ l, ∃ x y, email_content l = x ++ update_html u ++ y) ∧
      (∃ x, email_content l = x ++ email_footer) := by
  refine ⟨⟨"UAE Central Bank Rulebook Updates - ", rfl⟩, ?_, ?_, ?_⟩
  · refine ⟨"\n    <html>\n    <body>\n        <p>We found ",
      " added to the Central Bank Rulebook:</p>\n    " ++
        (String.join (l.map update_html) ++ email_footer), ?_⟩
    simp [email_content, email_header, count_phrase, String.append_assoc]
  · intro u hu
    obtain ⟨x, y, hxy⟩ := join_decomp (l.map update_html) (update_html u)
      (List.mem_map_of_mem _ hu)
    refine ⟨email_header l.length ++ x, y ++ email_footer, ?_⟩
    simp only [email_content]
    rw [hxy]
    simp [String.append_assoc]
  · exact ⟨email_header l.length ++ String.join (l.map update_html), rfl⟩

/-- Claim C9 amended, witness: one concrete record and date. -/
theorem email_composition_amended_witness :
    ([(⟨"T", "D", "L", "B"⟩ : UpdateRecord)] ≠ []) ∧
      ((∃ x, email_subject "01 January 2024" = x ++ "01 January 2024") ∧
        (∃ x y, email_content [(⟨"T", "D", "L", "B"⟩ : UpdateRecord)] =
          x ++ count_phrase
            [(⟨"T", "D", "L", "B"⟩ : UpdateRecord)].length ++ y) ∧
        (∀ u ∈ [(⟨"T", "D", "L", "B"⟩ : UpdateRecord)],
          ∃ x y, email_content [(⟨"T", "D", "L", "B"⟩ : UpdateRecord)] =
            x ++ update_html u ++ y) ∧
        (∃ x, email_content [(⟨"T", "D", "L", "B"⟩ : UpdateRecord)] =
          x ++ email_footer)) :=
  ⟨by decide,
    email_composition_amended [⟨"T", "D", "L", "B"⟩] "01 January 2024"
      (by decide)⟩

/-- Claim C8 amended, witness: two well-formed detail blocks against one
trail block (counts 2 and 1) — the fetch succeeds with exactly one
record. -/
theorem mismatched_counts_truncation_witness :
    ((Page.mk [⟨some ⟨"T1", some "/a"⟩, some "1 Jan"⟩,
        ⟨some ⟨"T2", some "/b"⟩, some "2 Jan"⟩] [⟨some "s1"⟩]).headlines
      ≠ []) ∧
      ((Page.mk [⟨some ⟨"T1", some "/a"⟩, some "1 Jan"⟩,
          ⟨some ⟨"T2", some "/b"⟩, some "2 Jan"⟩]
          [⟨some "s1"⟩]).headlines.length ≠
        (Page.mk [⟨some ⟨"T1", some "/a"⟩, some "1 Jan"⟩,
          ⟨some ⟨"T2", some "/b"⟩, some "2 Jan"⟩]
          [⟨some "s1"⟩]).trails.length) ∧
      (∀ ht ∈ (Page.mk [⟨some ⟨"T1", some "/a"⟩, some "1 Jan"⟩,
          ⟨some ⟨"T2", some "/b"⟩, some "2 Jan"⟩]
          [⟨some "s1"⟩]).headlines.zip
            (Page.mk [⟨some ⟨"T1", some "/a"⟩, some "1 Jan"⟩,
              ⟨some ⟨"T2", some "/b"⟩, some "2 Jan"⟩] [⟨some "s1"⟩]).trails,
        (extractRecord ht.1 ht.2).isOk = true) ∧
      (∃ recs,
        get_updates (Page.mk [⟨some ⟨"T1", some "/a"⟩, some "1 Jan"⟩,
            ⟨some ⟨"T2", some "/b"⟩, some "2 Jan"⟩] [⟨some "s1"⟩]) =
          .ok recs ∧
        recs.length =
          min (Page.mk [⟨some ⟨"T1", some "/a"⟩, some "1 Jan"⟩,
              ⟨some ⟨"T2", some "/b"⟩, some "2 Jan"⟩]
              [⟨some "s1"⟩]).headlines.length
            (Page.mk [⟨some ⟨"T1", some "/a"⟩, some "1 Jan"⟩,
              ⟨some ⟨"T2", some "/b"⟩, some "2 Jan"⟩]
              [⟨some "s1"⟩]).trails.length) :=
  ⟨by decide, by decide, by decide,
    mismatched_counts_truncation _ (by decide) (by decide) (by decide)⟩
